import Mathlib

/-!
Shallow embedding of `bitcoin/src/blockdata/locktime/relative.rs`: the
relative lock-time value model (BIP 68 / BIP 112 style).  `u16` is modelled
as `Fin 65536`; `u32` quantities are `Nat` values below `2 ^ 32`, and the
one place where `u32` addition can overflow is modelled with an explicit
`% 4294967296` (release-mode wrapping semantics of Rust).
-/

namespace RelativeLocktime

/-- Embedding of `pub struct Height(u16)` — a relative lock-by-blockheight value. -/
structure Height where
  inner : Fin 65536
deriving DecidableEq

/-- Embedding of `impl From<u16> for Height` (`Height(value)`). -/
def Height.from_u16 (value : Fin 65536) : Height := ⟨value⟩

/-- Embedding of `Height::value` — returns the inner `u16` value (as `Nat`). -/
def Height.value (h : Height) : Nat := h.inner.val

/-- Embedding of `impl fmt::Display for Height`: renders the inner value in decimal. -/
def Height.display (h : Height) : String := Nat.repr h.value

/-- Embedding of `pub struct Time(u16)` — a relative lock-by-blocktime value,
measured in 512 second intervals. -/
structure Time where
  inner : Fin 65536
deriving DecidableEq

/-- Embedding of `Time::from_512_second_intervals` (`Time(intervals)`). -/
def Time.from_512_second_intervals (intervals : Fin 65536) : Time := ⟨intervals⟩

/-- Embedding of `Time::value` — returns the inner `u16` value (as `Nat`). -/
def Time.value (t : Time) : Nat := t.inner.val

/-- Embedding of `impl fmt::Display for Time`: renders the inner value in decimal. -/
def Time.display (t : Time) : String := Nat.repr t.value

/-- Embedding of `pub struct TimeOverflowError { seconds: u32 }`. -/
structure TimeOverflowError where
  seconds : Nat
deriving DecidableEq

/-- Embedding of `Time::from_seconds_ceil`.  The source computes
`(seconds + 511) / 512` on `u32`; the addition is unchecked, so it wraps at
`2 ^ 32` (Rust release semantics), modelled by the explicit `% 4294967296`.
`u16::try_from` succeeds exactly when the quotient is below `65536`. -/
def Time.from_seconds_ceil (seconds : Nat) : Except TimeOverflowError Time :=
  let interval : Nat := ((seconds + 511) % 4294967296) / 512
  if h : interval < 65536 then
    Except.ok (Time.from_512_second_intervals ⟨interval, h⟩)
  else
    Except.error ⟨seconds⟩

/-- Embedding of `pub enum LockTime { Blocks(Height), Time(Time) }`. -/
inductive LockTime where
  | Blocks : Height → LockTime
  | Time : Time → LockTime
deriving DecidableEq

/-- Embedding of `pub struct IncompatibleHeightError { height, time }`. -/
structure IncompatibleHeightError where
  height : Height
  time : Time
deriving DecidableEq

/-- Embedding of `pub struct IncompatibleTimeError { time, height }`. -/
structure IncompatibleTimeError where
  time : Time
  height : Height
deriving DecidableEq

/-- Embedding of `LockTime::is_satisfied_by_height`. -/
def LockTime.is_satisfied_by_height : LockTime → Height → Except IncompatibleHeightError Bool
  | LockTime.Blocks h, height => Except.ok (decide (h.value ≤ height.value))
  | LockTime.Time time, height => Except.error ⟨height, time⟩

/-- Embedding of `LockTime::is_satisfied_by_time`. -/
def LockTime.is_satisfied_by_time : LockTime → RelativeLocktime.Time → Except IncompatibleTimeError Bool
  | LockTime.Time t, time => Except.ok (decide (t.value ≤ time.value))
  | LockTime.Blocks height, time => Except.error ⟨time, height⟩

/-- Embedding of `LockTime::is_satisfied_by`: `if let Ok(true) = height check
then true else matches!(time check, Ok(true))`. -/
def LockTime.is_satisfied_by (l : LockTime) (h : Height) (t : RelativeLocktime.Time) : Bool :=
  match l.is_satisfied_by_height h with
  | Except.ok true => true
  | _ =>
    match l.is_satisfied_by_time t with
    | Except.ok true => true
    | _ => false

/-- Embedding of `LockTime::is_implied_by`. -/
def LockTime.is_implied_by : LockTime → LockTime → Bool
  | LockTime.Blocks this, LockTime.Blocks other => decide (this.value ≤ other.value)
  | LockTime.Time this, LockTime.Time other => decide (this.value ≤ other.value)
  | _, _ => false

/-- Embedding of `impl From<Height> for LockTime`. -/
def LockTime.fromHeight (h : Height) : LockTime := LockTime.Blocks h

/-- Embedding of `impl From<Time> for LockTime`. -/
def LockTime.fromTime (t : RelativeLocktime.Time) : LockTime := LockTime.Time t

/-- Embedding of `impl fmt::Display for LockTime`; the `Bool` argument is the
formatter alternate flag (`{:#}` in Rust). -/
def LockTime.display (l : LockTime) (alternate : Bool) : String :=
  if alternate then
    match l with
    | LockTime.Blocks h => "block-height " ++ h.display
    | LockTime.Time t => "block-time " ++ t.display ++ " (512 second intervals)"
  else
    match l with
    | LockTime.Blocks h => h.display
    | LockTime.Time t => t.display

/-!
Theorems settling the claims, in terms of the embedding above.
-/

/-- Claim C1 (code_bug evidence): at `seconds = u32::MAX = 4294967295`, which
exceeds the claimed bound `33554431`, the wrapping `u32` addition inside
`Time::from_seconds_ceil` makes the computed interval `0`, so the function
returns `Ok(Time(0))` instead of the claimed `Err(TimeOverflowError)`. -/
theorem C1_from_seconds_ceil_overflow_bug :
    33554431 < 4294967295
      ∧ Time.from_seconds_ceil 4294967295
          = Except.ok (Time.from_512_second_intervals 0) :=
  ⟨by norm_num, rfl⟩

/-- Claim C2 (code_bug evidence): at `seconds = 4294967295` the function
returns `Ok` with interval count `0`, but the exact ceiling
`ceil(4294967295 / 512) = (4294967295 + 511) / 512` (computed without the
`u32` wrap) is `8388608`, not `0`. -/
theorem C2_from_seconds_ceil_wrong_ceiling :
    Time.from_seconds_ceil 4294967295
        = Except.ok (Time.from_512_second_intervals 0)
      ∧ (Time.from_512_second_intervals 0).value = 0
      ∧ (4294967295 + 511) / 512 = 8388608 :=
  ⟨rfl, rfl, by norm_num⟩

/-- Claim C3: `is_satisfied_by_height` on a `Blocks(lock_h)` lock returns
`Ok(lock_h.value() <= h.value())`, and on a `Time(t)` lock returns
`Err(IncompatibleHeightError)` carrying exactly the attempted height `h`
and the lock time value `t`. -/
theorem C3_is_satisfied_by_height_spec :
    (∀ (lh h : Height),
        (LockTime.Blocks lh).is_satisfied_by_height h
          = Except.ok (decide (lh.value ≤ h.value)))
      ∧ ∀ (t : Time) (h : Height),
          (LockTime.Time t).is_satisfied_by_height h = Except.error ⟨h, t⟩ :=
  ⟨fun _ _ => rfl, fun _ _ => rfl⟩

/-- Claim C4: `is_satisfied_by_time` on a `Time(lock_t)` lock returns
`Ok(lock_t.value() <= t.value())`, and on a `Blocks(h)` lock returns
`Err(IncompatibleTimeError)` carrying exactly the attempted time `t` and
the lock height value `h`. -/
theorem C4_is_satisfied_by_time_spec :
    (∀ (lt t : Time),
        (LockTime.Time lt).is_satisfied_by_time t
          = Except.ok (decide (lt.value ≤ t.value)))
      ∧ ∀ (h : Height) (t : Time),
          (LockTime.Blocks h).is_satisfied_by_time t = Except.error ⟨t, h⟩ :=
  ⟨fun _ _ => rfl, fun _ _ => rfl⟩

/-- Claim C5: `is_satisfied_by(h, t)` returns true exactly when one of the
typed predicates yields `Ok(true)`; any error from either predicate is
treated as false and never surfaced. -/
theorem C5_is_satisfied_by_combinator (l : LockTime) (h : Height) (t : Time) :
    l.is_satisfied_by h t = true ↔
      (l.is_satisfied_by_height h = Except.ok true
        ∨ l.is_satisfied_by_time t = Except.ok true) := by
  cases l with
  | Blocks lh =>
      cases hb : decide (lh.value ≤ h.value) <;>
        simp [LockTime.is_satisfied_by, LockTime.is_satisfied_by_height,
          LockTime.is_satisfied_by_time, hb]
  | Time lt =>
      cases hb : decide (lt.value ≤ t.value) <;>
        simp [LockTime.is_satisfied_by, LockTime.is_satisfied_by_height,
          LockTime.is_satisfied_by_time, hb]

/-- Claim C5 witness at concrete values. -/
theorem C5_is_satisfied_by_combinator_witness :
    (LockTime.Blocks (Height.from_u16 10)).is_satisfied_by (Height.from_u16 10)
        (Time.from_512_second_intervals 0) = true :=
  (C5_is_satisfied_by_combinator (LockTime.Blocks (Height.from_u16 10))
      (Height.from_u16 10) (Time.from_512_second_intervals 0)).mpr
    (Or.inl rfl)

/-- Claim C6: `a.is_implied_by(b)` is true iff `a` and `b` are the same
variant and the inner numeric value of `a` is at most that of `b`;
cross-variant calls are always false. -/
theorem C6_is_implied_by_spec (a b : LockTime) :
    a.is_implied_by b = true ↔
      ((∃ x y, a = LockTime.Blocks x ∧ b = LockTime.Blocks y ∧ x.value ≤ y.value)
        ∨ (∃ x y, a = LockTime.Time x ∧ b = LockTime.Time y ∧ x.value ≤ y.value)) := by
  cases a <;> cases b <;> simp [LockTime.is_implied_by]

/-- Claim C7: same-unit implication is sound for satisfaction.  For 16-bit
`n ≤ m`: whenever `Blocks(m)` is satisfied by a height, so is `Blocks(n)`;
and whenever `Time(m)` is satisfied by a time, so is `Time(n)`. -/
theorem C7_implication_sound (n m : Fin 65536) (hnm : n ≤ m) :
    (∀ h : Height,
        (LockTime.Blocks (Height.from_u16 m)).is_satisfied_by_height h = Except.ok true →
          (LockTime.Blocks (Height.from_u16 n)).is_satisfied_by_height h = Except.ok true)
      ∧ ∀ t : Time,
          (LockTime.Time (Time.from_512_second_intervals m)).is_satisfied_by_time t
              = Except.ok true →
            (LockTime.Time (Time.from_512_second_intervals n)).is_satisfied_by_time t
              = Except.ok true := by
  constructor
  · intro h hsat
    simp [LockTime.is_satisfied_by_height, Height.from_u16, Height.value] at hsat ⊢
    exact le_trans hnm hsat
  · intro t hsat
    simp [LockTime.is_satisfied_by_time, Time.from_512_second_intervals,
      Time.value] at hsat ⊢
    exact le_trans hnm hsat

/-- Claim C7 witness at concrete values. -/
theorem C7_implication_sound_witness :
    (LockTime.Blocks (Height.from_u16 1)).is_satisfied_by_height (Height.from_u16 3)
      = Except.ok true :=
  (C7_implication_sound 1 2 (by decide)).1 (Height.from_u16 3) rfl

/-- Claim C8: `is_implied_by` is reflexive, and restricted to one variant it
is transitive and total, i.e. a non-strict total order within one unit. -/
theorem C8_is_implied_by_order :
    (∀ x : LockTime, x.is_implied_by x = true)
      ∧ (∀ x y z : Height,
          (LockTime.Blocks x).is_implied_by (LockTime.Blocks y) = true →
            (LockTime.Blocks y).is_implied_by (LockTime.Blocks z) = true →
              (LockTime.Blocks x).is_implied_by (LockTime.Blocks z) = true)
      ∧ (∀ x y z : Time,
          (LockTime.Time x).is_implied_by (LockTime.Time y) = true →
            (LockTime.Time y).is_implied_by (LockTime.Time z) = true →
              (LockTime.Time x).is_implied_by (LockTime.Time z) = true)
      ∧ (∀ x y : Height,
          (LockTime.Blocks x).is_implied_by (LockTime.Blocks y) = true
            ∨ (LockTime.Blocks y).is_implied_by (LockTime.Blocks x) = true)
      ∧ ∀ x y : Time,
          (LockTime.Time x).is_implied_by (LockTime.Time y) = true
            ∨ (LockTime.Time y).is_implied_by (LockTime.Time x) = true := by
  refine ⟨fun x => ?_, fun x y z hxy hyz => ?_, fun x y z hxy hyz => ?_,
    fun x y => ?_, fun x y => ?_⟩
  · cases x <;> simp [LockTime.is_implied_by]
  · simp [LockTime.is_implied_by] at hxy hyz ⊢
    exact le_trans hxy hyz
  · simp [LockTime.is_implied_by] at hxy hyz ⊢
    exact le_trans hxy hyz
  · simp [LockTime.is_implied_by]
    exact Nat.le_total x.value y.value
  · simp [LockTime.is_implied_by]
    exact Nat.le_total x.value y.value

/-- Claim C8 witness at concrete values (the transitivity component applied
to block locks 1 ≤ 2 ≤ 3). -/
theorem C8_is_implied_by_order_witness :
    (LockTime.Blocks (Height.from_u16 1)).is_implied_by
      (LockTime.Blocks (Height.from_u16 3)) = true :=
  C8_is_implied_by_order.2.1 (Height.from_u16 1) (Height.from_u16 2)
    (Height.from_u16 3) (by decide) (by decide)

/-- Claim C9: both Display renderings show the same underlying value: the
concise form is the bare decimal of the inner value, the alternate form is
that same decimal with the `block-height` prefix, or the `block-time`
prefix and the `(512 second intervals)` suffix. -/
theorem C9_display_forms :
    (∀ h : Height,
        (LockTime.Blocks h).display false = Nat.repr h.value
          ∧ (LockTime.Blocks h).display true = "block-height " ++ Nat.repr h.value)
      ∧ ∀ t : Time,
          (LockTime.Time t).display false = Nat.repr t.value
            ∧ (LockTime.Time t).display true
                = "block-time " ++ Nat.repr t.value ++ " (512 second intervals)" :=
  ⟨fun _ => ⟨rfl, rfl⟩, fun _ => ⟨rfl, rfl⟩⟩

/-- Claim C10: constructor/accessor round-trips are exact: `Height::from`
and `Time::from_512_second_intervals` preserve the 16-bit value, and the
`From` conversions into `LockTime` wrap into the matching variant. -/
theorem C10_roundtrips :
    (∀ n : Fin 65536, (Height.from_u16 n).value = n.val)
      ∧ (∀ n : Fin 65536, (Time.from_512_second_intervals n).value = n.val)
      ∧ (∀ h : Height, LockTime.fromHeight h = LockTime.Blocks h)
      ∧ ∀ t : Time, LockTime.fromTime t = LockTime.Time t :=
  ⟨fun _ => rfl, fun _ => rfl, fun _ => rfl, fun _ => rfl⟩

end RelativeLocktime
